import Mathlib

/-!
Verification of the process-lifecycle controller of `cmd/up.go` (mayaserver):
the signal dispatch loop `handleSignals`, the graceful-leave race, the reload
path `handleReload`, and the logger setup `setupLoggers`.

The embedding is a shallow one: the external collaborators (the `server`
package's config acquisition and level-filter construction) are modelled by
their results, supplied as inputs; the dispatch loop is a recursive function
over the ordered trace of channel deliveries and timer firings.
-/

/-- Go's `strings.ToUpper`, on the ASCII range (which covers every log-level
name this program handles): uppercase each character. -/
def strToUpper (s : String) : String := String.mk (s.data.map Char.toUpper)

/-- Modelled from the spec: `server.MayaConfig` (the RunConfig snapshot) is not
under the visible source; the spec says it carries the log level, the
graceful-leave-on-interrupt flag, the graceful-leave-on-terminate flag, and
opaque collaborator-owned fields, collapsed here into `other`. The field names
`LogLevel`, `LeaveOnInt`, `LeaveOnTerm` are the ones `up.go` reads. -/
structure MayaConfig where
  LogLevel : String
  LeaveOnInt : Bool
  LeaveOnTerm : Bool
  other : Nat
  deriving Repr, DecidableEq

/-- The `logutils.LevelFilter` state the controller owns: the current minimum
severity and the list of valid severities (the `Writer` field is irrelevant to
the lifecycle logic and omitted). -/
structure LevelFilter where
  MinLevel : String
  Levels : List String
  deriving Repr, DecidableEq

/-- Modelled from the spec: `server.ValidateLevelFilter` is not under the
visible source; the spec's contract is `ValidateLevel(level, filter) -> bool:
checks a requested log severity against the filter's known set`. -/
def ValidateLevelFilter (minLevel : String) (filter : LevelFilter) : Bool :=
  filter.Levels.contains minLevel

/-- Modelled from the spec: `server.LevelFilter()` is not under the visible
source; it constructs the filter holding the known set of valid severities.
The help text of `up.go` lists DEBUG, INFO and WARN as valid values with
default INFO. -/
def defaultLevelFilter : LevelFilter :=
  { MinLevel := "INFO", Levels := ["DEBUG", "INFO", "WARN"] }

/-- `gracefulTimeout = 5 * time.Second` (`time.Second` in nanoseconds). -/
def timeSecond : Nat := 1000000000

/-- How long the orchestrator waits before forcefully terminating. -/
def gracefulTimeout : Nat := 5 * timeSecond

/-- The value handed back by `handleReload`, seen as a Go pointer: `null`
translates a nil `*server.MayaConfig`, `same c` is the caller's own pointer
(whose pointee is `c`), `fresh c` is a newly allocated config. -/
inductive ConfPtr where
  | null : ConfPtr
  | same : MayaConfig → ConfPtr
  | fresh : MayaConfig → ConfPtr
  deriving Repr, DecidableEq

/-- Result of `handleReload`: the returned pointer, the level filter after the
call (`c.logFilter`), and the messages sent to `Ui.Error` (format arguments
collapsed). -/
structure ReloadOut where
  ret : ConfPtr
  filter : LevelFilter
  errors : List String
  deriving Repr, DecidableEq

/-- `UpCommand.handleReload` (up.go:333-354). `acquired` is the result of the
collaborator call `c.readMayaConfig()` (`none` = nil: acquisition failed).
On failure it reports and returns the pointer it was given; otherwise it
uppercases the new config's log level, and either installs it as the filter's
minimum (valid) or reports and copies the previous config's log level into the
new config (invalid). -/
def handleReload (mconfig : MayaConfig) (filter : LevelFilter)
    (acquired : Option MayaConfig) : ReloadOut :=
  match acquired with
  | none =>
      { ret := ConfPtr.same mconfig, filter := filter,
        errors := ["Failed to reload config"] }
  | some newConf =>
      let minLevel := strToUpper newConf.LogLevel
      if ValidateLevelFilter minLevel filter then
        { ret := ConfPtr.fresh newConf,
          filter := { filter with MinLevel := minLevel }, errors := [] }
      else
        { ret := ConfPtr.fresh { newConf with LogLevel := mconfig.LogLevel },
          filter := filter, errors := ["Invalid log level"] }

/-- State of the dispatch loop after one reload dispatch. -/
structure StepOut where
  mconfig : MayaConfig
  filter : LevelFilter
  errors : List String
  deriving Repr, DecidableEq

/-- The SIGHUP branch of the dispatch loop (up.go:290-295):
`if conf := c.handleReload(mconfig); conf != nil { *mconfig = *conf }` —
the copy-back into the active config happens whenever the returned pointer is
non-nil. -/
def reloadStep (mconfig : MayaConfig) (filter : LevelFilter)
    (acquired : Option MayaConfig) : StepOut :=
  let r := handleReload mconfig filter acquired
  match r.ret with
  | ConfPtr.null => { mconfig := mconfig, filter := r.filter, errors := r.errors }
  | ConfPtr.same c => { mconfig := c, filter := r.filter, errors := r.errors }
  | ConfPtr.fresh c => { mconfig := c, filter := r.filter, errors := r.errors }

/-- Result of `UpCommand.setupLoggers`, restricted to the level-filter state:
`logFilter` is the `c.logFilter` field after the call, `ok` is whether the
returned gated writer is non-nil (success). The syslog and writer wiring is
omitted: it never touches `MinLevel` or `Levels`. -/
structure SetupOut where
  logFilter : LevelFilter
  ok : Bool
  errors : List String
  deriving Repr, DecidableEq

/-- `UpCommand.setupLoggers` (up.go:128-168), level-filter part: the filter's
`MinLevel` is ASSIGNED the uppercased requested level first (up.go:137), and
only then validated (up.go:139); on invalid input the function reports and
fails, leaving `c.logFilter.MinLevel` holding the invalid value. -/
def setupLoggers (mconfig : MayaConfig) : SetupOut :=
  let f := { defaultLevelFilter with MinLevel := strToUpper mconfig.LogLevel }
  if ValidateLevelFilter f.MinLevel f then
    { logFilter := f, ok := true, errors := [] }
  else
    { logFilter := f, ok := false, errors := ["Invalid log level"] }

/-- One occurrence in the ordered trace of events the lifecycle can consume:
deliveries on `signalCh` (`sigInt`, `sigTerm`, `sigPipe`, `sigHup`), a
delivery on the externally owned `ShutdownCh` (`shut`), completion of the
graceful-leave goroutine (`leaveDone` closes `gracefulCh`; `leaveErr e` is
`Leave` returning error `e`, which is logged and leaves the channel open), and
the firing of the `time.After(gracefulTimeout)` timer (`graceTimeout`).
A `sigHup` carries the collaborator's answer to the `readMayaConfig()` call
the reload it triggers will make (`none` = acquisition fails). -/
inductive Occ where
  | sigInt : Occ
  | sigTerm : Occ
  | sigPipe : Occ
  | sigHup : Option MayaConfig → Occ
  | shut : Occ
  | leaveDone : Occ
  | leaveErr : String → Occ
  | graceTimeout : Occ
  deriving Repr, DecidableEq

/-- Outcome of running the dispatch loop on a trace: the exit code (`none` if
the trace ends with the loop still blocked), how many times the graceful-leave
goroutine (`c.maya.Leave()`) was launched, the `Ui.Error` messages emitted, and
the successive values of `c.logFilter` after each reload dispatch. -/
structure RunOut where
  exit : Option Nat
  leaveInvocations : Nat
  errors : List String
  filters : List LevelFilter
  deriving Repr, DecidableEq

/-- The three-way race of the shutdown orchestrator (up.go:322-329):
`select { case <-signalCh: return 1; case <-time.After(gracefulTimeout):
return 1; case <-gracefulCh: return 0 }`. The select resolves at the first
occurrence it listens on: ANY `signalCh` delivery returns 1 (the SIGPIPE skip
and the SIGHUP branch exist only in the WAIT loop), the timer returns 1, leave
completion returns 0. A `ShutdownCh` delivery is NOT among the cases, so it is
never received here and the race continues past it; a `Leave` error is logged
by the goroutine (up.go:314-317) and closes nothing, so the race also
continues past it. -/
def race : List Occ → RunOut
  | [] => { exit := none, leaveInvocations := 0, errors := [], filters := [] }
  | Occ.sigInt :: _ =>
      { exit := some 1, leaveInvocations := 0, errors := [], filters := [] }
  | Occ.sigTerm :: _ =>
      { exit := some 1, leaveInvocations := 0, errors := [], filters := [] }
  | Occ.sigPipe :: _ =>
      { exit := some 1, leaveInvocations := 0, errors := [], filters := [] }
  | Occ.sigHup _ :: _ =>
      { exit := some 1, leaveInvocations := 0, errors := [], filters := [] }
  | Occ.graceTimeout :: _ =>
      { exit := some 1, leaveInvocations := 0, errors := [], filters := [] }
  | Occ.leaveDone :: _ =>
      { exit := some 0, leaveInvocations := 0, errors := [], filters := [] }
  | Occ.leaveErr e :: rest =>
      let o := race rest
      { o with errors := ("Error: " ++ e) :: o.errors }
  | Occ.shut :: rest => race rest

/-- Dispatch of a terminating signal (up.go:297-329): eligibility is
`sig == os.Interrupt && mconfig.LeaveOnInt || sig == syscall.SIGTERM &&
mconfig.LeaveOnTerm`; if ineligible return 1 at once, otherwise launch the
leave goroutine and enter the three-way race on the remaining trace. -/
def dispatchSig (isInterrupt : Bool) (mconfig : MayaConfig)
    (rest : List Occ) : RunOut :=
  let graceful := if isInterrupt then mconfig.LeaveOnInt else mconfig.LeaveOnTerm
  if graceful then
    let o := race rest
    { o with leaveInvocations := o.leaveInvocations + 1 }
  else
    { exit := some 1, leaveInvocations := 0, errors := [], filters := [] }

/-- The WAIT loop of `UpCommand.handleSignals` (up.go:274-308) over an ordered
trace of occurrences. The select listens on `signalCh` and `ShutdownCh`
(a `ShutdownCh` delivery is handled as `os.Interrupt`, up.go:279-280); a
SIGPIPE is skipped back to WAIT (up.go:285-287); a SIGHUP runs the reload
branch and loops (up.go:290-295); interrupt/terminate dispatch to the
orchestrator. Occurrences of leave completion or the grace timer are inert in
this state: no leave goroutine has been launched and no timer armed, so
nothing in the program can produce or receive them before the race is entered. -/
def waitLoop (mconfig : MayaConfig) (filter : LevelFilter) : List Occ → RunOut
  | [] => { exit := none, leaveInvocations := 0, errors := [], filters := [] }
  | Occ.sigPipe :: rest => waitLoop mconfig filter rest
  | Occ.sigHup acq :: rest =>
      let s := reloadStep mconfig filter acq
      let o := waitLoop s.mconfig s.filter rest
      { o with errors := s.errors ++ o.errors, filters := s.filter :: o.filters }
  | Occ.sigInt :: rest => dispatchSig true mconfig rest
  | Occ.shut :: rest => dispatchSig true mconfig rest
  | Occ.sigTerm :: rest => dispatchSig false mconfig rest
  | Occ.leaveDone :: rest => waitLoop mconfig filter rest
  | Occ.leaveErr _ :: rest => waitLoop mconfig filter rest
  | Occ.graceTimeout :: rest => waitLoop mconfig filter rest

/-! ## Concrete inputs used by counterexamples and witnesses -/

/-- A config eligible for graceful leave on interrupt. -/
def cfgLeave : MayaConfig :=
  { LogLevel := "INFO", LeaveOnInt := true, LeaveOnTerm := false, other := 0 }

/-- A config requesting a log level outside the filter's valid set. -/
def cfgBogus : MayaConfig :=
  { LogLevel := "bogus", LeaveOnInt := false, LeaveOnTerm := false, other := 1 }

/-! ## Helper lemmas about the race -/

/-- The race itself launches no leave goroutine. -/
theorem race_leaveInvocations_zero (l : List Occ) : (race l).leaveInvocations = 0 := by
  induction l with
  | nil => rfl
  | cons x rest ih => cases x <;> simp [race, ih]

/-- A `ShutdownCh` delivery anywhere in the race trace is never received:
removing it changes nothing. -/
theorem race_append_shut (pre t : List Occ) :
    race (pre ++ Occ.shut :: t) = race (pre ++ t) := by
  induction pre with
  | nil => simp [race]
  | cons x rest ih => cases x <;> simp [race, ih]

/-- An occurrence the race's select does not listen on: a `ShutdownCh`
delivery, or the leave goroutine erroring out. -/
def raceSkipped (x : Occ) : Prop := x = Occ.shut ∨ ∃ e, x = Occ.leaveErr e

/-- The race's resolution is unchanged by a prefix of unlistened occurrences. -/
theorem race_skipped_prefix_exit (pre t : List Occ)
    (hp : ∀ x ∈ pre, raceSkipped x) :
    (race (pre ++ t)).exit = (race t).exit := by
  induction pre with
  | nil => rfl
  | cons x rest ih =>
    have hx := hp x (by simp)
    have hrest : ∀ y ∈ rest, raceSkipped y := fun y hy => hp y (by simp [hy])
    rcases hx with h | ⟨e, h⟩ <;> subst h <;> simp [race, ih hrest]

/-- A leave error occurring during the race is logged. -/
theorem race_skipped_prefix_err (pre t : List Occ) (e : String)
    (hp : ∀ x ∈ pre, raceSkipped x) (he : Occ.leaveErr e ∈ pre) :
    ("Error: " ++ e) ∈ (race (pre ++ t)).errors := by
  induction pre with
  | nil => cases he
  | cons x rest ih =>
    have hrest : ∀ y ∈ rest, raceSkipped y := fun y hy => hp y (by simp [hy])
    rcases List.mem_cons.mp he with h | h
    · subst h; simp [race]
    · rcases hp x (by simp) with hx | ⟨e', hx⟩ <;> subst hx <;>
        simp [race, ih hrest h]

/-! ## Reload claims -/

/-- C2: for every reload in which acquisition succeeds but the requested log
level fails validation, the resulting active configuration equals the newly
acquired one in every field except the log level, which equals the prior
configuration's log level, and the filter's minimum level is unchanged (the
invalid-level condition is reported). -/
theorem reload_invalid_level_frame (m newConf : MayaConfig) (f : LevelFilter)
    (h : ValidateLevelFilter (strToUpper newConf.LogLevel) f = false) :
    reloadStep m f (some newConf) =
      { mconfig := { newConf with LogLevel := m.LogLevel }, filter := f,
        errors := ["Invalid log level"] } := by
  simp [reloadStep, handleReload, h]

/-- Witness for `reload_invalid_level_frame` at a concrete invalid level. -/
theorem reload_invalid_level_frame_witness :
    ValidateLevelFilter (strToUpper cfgBogus.LogLevel) defaultLevelFilter = false ∧
    reloadStep cfgLeave defaultLevelFilter (some cfgBogus) =
      { mconfig := { cfgBogus with LogLevel := cfgLeave.LogLevel },
        filter := defaultLevelFilter, errors := ["Invalid log level"] } :=
  ⟨by decide, reload_invalid_level_frame cfgLeave cfgBogus defaultLevelFilter (by decide)⟩

/-- C9: for every reload in which acquisition fails, `handleReload` hands back
the very pointer it was given (the active configuration is reference-identical
to the one before the attempt), the failure is reported, and the loop resumes
waiting with the config and filter unchanged and the report emitted ahead of
anything later. -/
theorem reload_failed_acquisition_unchanged (m : MayaConfig) (f : LevelFilter)
    (t : List Occ) :
    (handleReload m f none).ret = ConfPtr.same m ∧
    reloadStep m f none =
      { mconfig := m, filter := f, errors := ["Failed to reload config"] } ∧
    waitLoop m f (Occ.sigHup none :: t) =
      { waitLoop m f t with
          errors := "Failed to reload config" :: (waitLoop m f t).errors,
          filters := f :: (waitLoop m f t).filters } := by
  refine ⟨rfl, rfl, ?_⟩
  simp [waitLoop, reloadStep, handleReload]

/-- C10: `handleReload` never returns a nil pointer; on acquisition failure it
returns the caller's own pointer, so the guarded copy-back `*mconfig = *conf`
always executes, never dereferences nil, and is a no-op self-assignment in the
failure case. -/
theorem handleReload_never_null (m : MayaConfig) (f : LevelFilter)
    (acq : Option MayaConfig) :
    (handleReload m f acq).ret ≠ ConfPtr.null ∧
    (acq = none →
      (handleReload m f acq).ret = ConfPtr.same m ∧
      (reloadStep m f acq).mconfig = m) := by
  constructor
  · cases acq with
    | none => simp [handleReload]
    | some c =>
      by_cases h : ValidateLevelFilter (strToUpper c.LogLevel) f <;>
        simp [handleReload, h]
  · rintro rfl
    exact ⟨rfl, rfl⟩

/-- Witness for `handleReload_never_null` at a failing acquisition. -/
theorem handleReload_never_null_witness :
    (handleReload cfgLeave defaultLevelFilter none).ret = ConfPtr.same cfgLeave ∧
    (reloadStep cfgLeave defaultLevelFilter none).mconfig = cfgLeave :=
  (handleReload_never_null cfgLeave defaultLevelFilter none).2 rfl

/-! ## Log-filter validity (startup and reload) -/

/-- C3 counterexample: at startup logger setup with requested level "bogus",
the filter's minimum level IS set (before validation) to "BOGUS", a value
outside the filter's valid set — so "the log filter's minimum level is never
set to a value outside the filter's set of valid levels at every point in the
lifecycle, startup logger setup included" fails on the code. -/
theorem setup_invalid_minLevel_cex :
    (setupLoggers cfgBogus).logFilter.MinLevel = "BOGUS" ∧
    ((setupLoggers cfgBogus).logFilter.Levels.contains
        (setupLoggers cfgBogus).logFilter.MinLevel) = false ∧
    (setupLoggers cfgBogus).ok = false := by decide

/-- C3 amended: during startup logger setup the minimum level is assigned
before validation, so an invalid request leaves the filter holding an invalid
value, but then setup fails and startup aborts; whenever setup succeeds the
minimum level is in the valid set, and every reload keeps it in the valid set. -/
theorem minLevel_validity_amended :
    (∀ m : MayaConfig, (setupLoggers m).ok = true →
        ((setupLoggers m).logFilter.Levels.contains
            (setupLoggers m).logFilter.MinLevel) = true) ∧
    (∀ (m : MayaConfig) (f : LevelFilter) (acq : Option MayaConfig),
        (f.Levels.contains f.MinLevel) = true →
        ((handleReload m f acq).filter.Levels.contains
            (handleReload m f acq).filter.MinLevel) = true) := by
  constructor
  · intro m hok
    simp only [setupLoggers, ValidateLevelFilter] at hok ⊢
    split_ifs at hok ⊢ with h
    exact h
  · intro m f acq hvalid
    cases acq with
    | none => simpa [handleReload] using hvalid
    | some c =>
      by_cases h : ValidateLevelFilter (strToUpper c.LogLevel) f
      · simp only [handleReload, h, if_true]
        simpa [ValidateLevelFilter] using h
      · simpa [handleReload, h] using hvalid

/-- Witness for `minLevel_validity_amended`: a successful setup and a reload
from a valid filter. -/
theorem minLevel_validity_amended_witness :
    ((setupLoggers cfgLeave).logFilter.Levels.contains
        (setupLoggers cfgLeave).logFilter.MinLevel) = true ∧
    ((handleReload cfgLeave defaultLevelFilter (some cfgBogus)).filter.Levels.contains
        (handleReload cfgLeave defaultLevelFilter (some cfgBogus)).filter.MinLevel) = true :=
  ⟨minLevel_validity_amended.1 cfgLeave (by decide),
   minLevel_validity_amended.2 cfgLeave defaultLevelFilter (some cfgBogus) (by decide)⟩

/-! ## Shutdown orchestrator claims -/

/-- C5: if the active configuration's leave-on-interrupt flag is false, every
Interrupt event — OS signal or shutdown-channel trigger — returns exit code 1
immediately and the agent's `Leave` operation is never invoked. -/
theorem no_leave_when_flag_false (m : MayaConfig) (f : LevelFilter)
    (t : List Occ) (e : Occ) (h : m.LeaveOnInt = false)
    (he : e = Occ.sigInt ∨ e = Occ.shut) :
    (waitLoop m f (e :: t)).exit = some 1 ∧
    (waitLoop m f (e :: t)).leaveInvocations = 0 := by
  rcases he with rfl | rfl <;> simp [waitLoop, dispatchSig, h]

/-- Witness for `no_leave_when_flag_false` on a concrete trace. -/
theorem no_leave_when_flag_false_witness :
    cfgBogus.LeaveOnInt = false ∧
    (waitLoop cfgBogus defaultLevelFilter (Occ.sigInt :: [Occ.graceTimeout])).exit = some 1 ∧
    (waitLoop cfgBogus defaultLevelFilter (Occ.sigInt :: [Occ.graceTimeout])).leaveInvocations = 0 :=
  ⟨rfl, no_leave_when_flag_false cfgBogus defaultLevelFilter [Occ.graceTimeout]
    Occ.sigInt rfl (Or.inl rfl)⟩

/-- C6: if leave-on-interrupt is set and the leave operation completes before
the grace period and before any second signal (it is the first race event),
the lifecycle returns exit code 0, having launched the leave exactly once. -/
theorem leave_completes_exit_zero (m : MayaConfig) (f : LevelFilter)
    (t : List Occ) (e : Occ) (h : m.LeaveOnInt = true)
    (he : e = Occ.sigInt ∨ e = Occ.shut) :
    (waitLoop m f (e :: Occ.leaveDone :: t)).exit = some 0 ∧
    (waitLoop m f (e :: Occ.leaveDone :: t)).leaveInvocations = 1 := by
  rcases he with rfl | rfl <;> simp [waitLoop, dispatchSig, race, h]

/-- Witness for `leave_completes_exit_zero` on a concrete trace. -/
theorem leave_completes_exit_zero_witness :
    cfgLeave.LeaveOnInt = true ∧
    (waitLoop cfgLeave defaultLevelFilter (Occ.sigInt :: Occ.leaveDone :: [])).exit = some 0 ∧
    (waitLoop cfgLeave defaultLevelFilter (Occ.sigInt :: Occ.leaveDone :: [])).leaveInvocations = 1 :=
  ⟨rfl, leave_completes_exit_zero cfgLeave defaultLevelFilter [] Occ.sigInt rfl (Or.inl rfl)⟩

/-- C7: if a second qualifying signal arrives strictly before the leave
completes and before the grace period elapses (nothing ahead of it in the race
trace but unlistened occurrences), the lifecycle returns exit code 1, and the
result does not depend on anything after that signal — in particular not on a
later timer firing: the abort is immediate. -/
theorem second_signal_aborts_leave (m : MayaConfig) (f : LevelFilter)
    (pre rest : List Occ) (s : Occ) (h : m.LeaveOnInt = true)
    (hp : ∀ x ∈ pre, raceSkipped x)
    (hs : s = Occ.sigInt ∨ s = Occ.sigTerm) :
    (waitLoop m f (Occ.sigInt :: (pre ++ s :: rest))).exit = some 1 ∧
    ∀ rest' : List Occ,
      (waitLoop m f (Occ.sigInt :: (pre ++ s :: rest))).exit =
        (waitLoop m f (Occ.sigInt :: (pre ++ s :: rest'))).exit := by
  have key : ∀ r : List Occ,
      (waitLoop m f (Occ.sigInt :: (pre ++ s :: r))).exit = some 1 := by
    intro r
    have h1 := race_skipped_prefix_exit pre (s :: r) hp
    rcases hs with rfl | rfl <;> simp [waitLoop, dispatchSig, h, h1, race]
  exact ⟨key rest, fun rest' => (key rest).trans (key rest').symm⟩

/-- Witness for `second_signal_aborts_leave`: a terminate signal racing past a
shutdown-channel send and a leave error, ahead of the timer. -/
theorem second_signal_aborts_leave_witness :
    (waitLoop cfgLeave defaultLevelFilter
        (Occ.sigInt :: ([Occ.shut, Occ.leaveErr "boom"] ++
          Occ.sigTerm :: [Occ.graceTimeout]))).exit = some 1 :=
  (second_signal_aborts_leave cfgLeave defaultLevelFilter
    [Occ.shut, Occ.leaveErr "boom"] [Occ.graceTimeout] Occ.sigTerm rfl
    (by simp [raceSkipped]) (Or.inr rfl)).1

/-- C8: if the leave never completes — in particular when `Leave` returns an
error, which is logged and never closes the completion channel — and no second
signal arrives, the lifecycle returns exit code 1 when the grace-period timer
(the fixed `5 * time.Second`) fires. -/
theorem timeout_aborts_leave (m : MayaConfig) (f : LevelFilter)
    (pre rest : List Occ) (h : m.LeaveOnInt = true)
    (hp : ∀ x ∈ pre, raceSkipped x) :
    (waitLoop m f (Occ.sigInt :: (pre ++ Occ.graceTimeout :: rest))).exit = some 1 ∧
    gracefulTimeout = 5 * timeSecond ∧
    ∀ e : String, Occ.leaveErr e ∈ pre →
      ("Error: " ++ e) ∈
        (waitLoop m f (Occ.sigInt :: (pre ++ Occ.graceTimeout :: rest))).errors := by
  refine ⟨?_, rfl, ?_⟩
  · have h1 := race_skipped_prefix_exit pre (Occ.graceTimeout :: rest) hp
    simp [waitLoop, dispatchSig, h, h1, race]
  · intro e he
    have h2 := race_skipped_prefix_err pre (Occ.graceTimeout :: rest) e hp he
    simpa [waitLoop, dispatchSig, h] using h2

/-- Witness for `timeout_aborts_leave`: the leave errors out, nobody sends a
second signal, the timer fires. -/
theorem timeout_aborts_leave_witness :
    (waitLoop cfgLeave defaultLevelFilter
        (Occ.sigInt :: ([Occ.leaveErr "down"] ++ Occ.graceTimeout :: []))).exit = some 1 ∧
    ("Error: " ++ "down") ∈
      (waitLoop cfgLeave defaultLevelFilter
        (Occ.sigInt :: ([Occ.leaveErr "down"] ++ Occ.graceTimeout :: []))).errors :=
  ⟨(timeout_aborts_leave cfgLeave defaultLevelFilter [Occ.leaveErr "down"] [] rfl
      (by simp [raceSkipped])).1,
   (timeout_aborts_leave cfgLeave defaultLevelFilter [Occ.leaveErr "down"] [] rfl
      (by simp [raceSkipped])).2.2 "down" (by simp)⟩

/-! ## Shutdown channel and SIGPIPE during the armed race -/

/-- C1 counterexample: with leave-on-interrupt set, a first shutdown-channel
send arms the graceful leave, a SECOND shutdown-channel send arrives while the
race is armed, and then the leave completes: the run exits 0 — the second send
did not resolve the race with exit code 1, because the race's select does not
listen on the shutdown channel. -/
theorem shut_during_race_cex :
    cfgLeave.LeaveOnInt = true ∧
    (waitLoop cfgLeave defaultLevelFilter
        [Occ.shut, Occ.shut, Occ.leaveDone]).exit = some 0 ∧
    (waitLoop cfgLeave defaultLevelFilter
        [Occ.shut, Occ.shut, Occ.leaveDone]).exit ≠ some 1 := by decide

/-- C1 amended: a shutdown-channel delivery is interrupt-equivalent in the
wait state; but once a graceful leave is armed, the shutdown channel is not
among the race's cases, so a send there is never received and the run is
exactly what it would be without it — the race resolves only via a signal
delivery, the timer, or leave completion. -/
theorem shut_interrupt_equiv_amended (m : MayaConfig) (f : LevelFilter) :
    (∀ t, waitLoop m f (Occ.shut :: t) = waitLoop m f (Occ.sigInt :: t)) ∧
    (∀ pre t, waitLoop m f (Occ.sigInt :: (pre ++ Occ.shut :: t)) =
        waitLoop m f (Occ.sigInt :: (pre ++ t))) := by
  constructor
  · intro t; rfl
  · intro pre t
    simp [waitLoop, dispatchSig, race_append_shut]

/-- C4 counterexample: with leave-on-interrupt set, a broken-pipe delivery
while the race is armed resolves it as a second signal with exit code 1,
whereas without it the leave completes with exit code 0 — so a broken-pipe is
not swallowed in every state of the dispatch loop. -/
theorem sigpipe_during_race_cex :
    (waitLoop cfgLeave defaultLevelFilter
        [Occ.sigInt, Occ.sigPipe, Occ.leaveDone]).exit = some 1 ∧
    (waitLoop cfgLeave defaultLevelFilter
        [Occ.sigInt, Occ.leaveDone]).exit = some 0 ∧
    (waitLoop cfgLeave defaultLevelFilter
        [Occ.sigInt, Occ.sigPipe, Occ.leaveDone]).exit ≠
      (waitLoop cfgLeave defaultLevelFilter
        [Occ.sigInt, Occ.leaveDone]).exit := by decide

/-- C4 amended: in the wait state a broken-pipe delivery is swallowed and
produces no dispatchable event — the loop on a trace of only broken-pipes
followed by an Interrupt behaves identically to the Interrupt alone; the
transparency does not extend to the armed race (see the counterexample). -/
theorem sigpipe_transparent_in_wait_amended (m : MayaConfig) (f : LevelFilter) :
    (∀ t, waitLoop m f (Occ.sigPipe :: t) = waitLoop m f t) ∧
    (∀ p t, (∀ x ∈ p, x = Occ.sigPipe) →
        waitLoop m f (p ++ Occ.sigInt :: t) = waitLoop m f (Occ.sigInt :: t)) := by
  constructor
  · intro t; rfl
  · intro p t hp
    induction p with
    | nil => rfl
    | cons x rest ih =>
      have hx := hp x (by simp)
      subst hx
      simp only [List.cons_append, waitLoop]
      exact ih (fun y hy => hp y (by simp [hy]))

/-- Witness for `sigpipe_transparent_in_wait_amended` on a concrete trace of
two broken-pipes ahead of an Interrupt. -/
theorem sigpipe_transparent_in_wait_amended_witness :
    waitLoop cfgLeave defaultLevelFilter
        ([Occ.sigPipe, Occ.sigPipe] ++ Occ.sigInt :: [Occ.leaveDone]) =
      waitLoop cfgLeave defaultLevelFilter (Occ.sigInt :: [Occ.leaveDone]) :=
  (sigpipe_transparent_in_wait_amended cfgLeave defaultLevelFilter).2
    [Occ.sigPipe, Occ.sigPipe] [Occ.leaveDone] (by simp)
